import Mathlib

/-
Verification of the multiJob concurrency library.

Shallow embedding of the library's sequential semantics:
  * the multiJob lifecycle state machine (src/include/Thread.h, src/unnamed/part_003),
  * the multiJobQueue operations (src/unnamed/part_004),
  * the worker-thread loop and its failure path (src/unnamed/part_005, part_006),
  * the multi::Barrier counters (src/unnamed/part_006),
  * lock/callback dispatch traces for selected member functions.

Machine integers are modelled as Nat with explicit masking by multiJob_ALL = 15,
exactly as the source masks every state assignment.
-/

namespace MultiJob

/-! Job state bits, from the multiJob::State enum (src/include/Thread.h). -/

def multiJob_NONE : Nat := 0

def multiJob_READY : Nat := 1

def multiJob_RUNNING : Nat := 2

def multiJob_CANCEL : Nat := 4

def multiJob_FINISHED : Nat := 8

def multiJob_ALL : Nat := 15

/-- Notifications a multiJobCallback can receive from setState. -/
inductive JNotif where
  | ready
  | started
  | canceled
  | finished
deriving DecidableEq, Repr, Fintype

/-- State computation at the top of multiJob::setState (src/unnamed/part_003 lines 149-157):
`(s | value) & multiJob_ALL` when on, `(s & ~value) & multiJob_ALL` otherwise.  On Nat the
masked complement `(s & ~v) & 15` equals `s &&& (15 ^^^ (v &&& 15))` bit for bit. -/
def setStateCompute (s v : Nat) (onFlag : Bool) : Nat :=
  if onFlag then (s ||| v) &&& 15 else s &&& (15 ^^^ (v &&& 15))

/-- Notification selection of multiJob::setState (src/unnamed/part_003 lines 174-196):
an else-if chain over rising edges in the order READY, RUNNING, CANCEL, FINISHED,
so at most one notification is produced. -/
def setStateNotifs (s newState : Nat) : List JNotif :=
  if s &&& 1 = 0 ∧ ¬ newState &&& 1 = 0 then [JNotif.ready]
  else if s &&& 2 = 0 ∧ ¬ newState &&& 2 = 0 then [JNotif.started]
  else if s &&& 4 = 0 ∧ ¬ newState &&& 4 = 0 then [JNotif.canceled]
  else if s &&& 8 = 0 ∧ ¬ newState &&& 8 = 0 then [JNotif.finished]
  else []

/-- Embedding of multiJob::setState (src/unnamed/part_003 lines 141-197).  Returns the new
state and the notifications delivered; `cb` records whether a callback is attached
(the source fires notifications only when `stateChangedFlag && callback`). -/
def setStateOp (value : Nat) (onFlag cb : Bool) (s : Nat) : Nat × List JNotif :=
  let newState := setStateCompute s value onFlag
  (newState, if cb = true ∧ ¬ newState = s then setStateNotifs s newState else [])

/-- Embedding of multiJob::resetState (src/include/Thread.h lines 545-559): when `value`
differs from the current state the state is cleared to multiJob_NONE and setState(value)
runs from there; otherwise nothing happens. -/
def resetStateOp (value : Nat) (cb : Bool) (s : Nat) : Nat × List JNotif :=
  if value = s then (s, [])
  else setStateOp value true cb 0

/-- Embedding of multiJob::cancel (src/include/Thread.h): setState(multiJob_CANCEL). -/
def cancelOp (cb : Bool) (s : Nat) : Nat × List JNotif :=
  setStateOp 4 true cb s

/-- Embedding of multiJob::ready (src/include/Thread.h): resetState(multiJob_READY). -/
def readyOp (cb : Bool) (s : Nat) : Nat × List JNotif :=
  resetStateOp 1 cb s

/-- Embedding of multiJob::running (src/include/Thread.h): resetState(multiJob_RUNNING). -/
def runningOp (cb : Bool) (s : Nat) : Nat × List JNotif :=
  resetStateOp 2 cb s

/-- Embedding of multiJob::finished (src/include/Thread.h lines 608-619): keep the CANCEL
bit, or in FINISHED, and resetState to that value. -/
def finishedOp (cb : Bool) (s : Nat) : Nat × List JNotif :=
  resetStateOp ((s &&& 4) ||| 8) cb s

/-- Embedding of multiJob::isCanceled (src/include/Thread.h): `m_state & multiJob_CANCEL`
converted to bool. -/
def isCanceledState (s : Nat) : Bool :=
  decide (¬ s &&& 4 = 0)

/-- Embedding of multiJob::start (src/unnamed/part_003 lines 131-139) specialised to a
run() body that performs no state change: setState(RUNNING), then, if CANCEL is not set,
setState(FINISHED). -/
def startNoRunOp (cb : Bool) (s : Nat) : Nat × List JNotif :=
  let r1 := setStateOp 2 true cb s
  if r1.1 &&& 4 = 0 then
    let r2 := setStateOp 8 true cb r1.1
    (r2.1, r1.2 ++ r2.2)
  else r1

/-- Bit observed by each notification's rising-edge test in setState. -/
def notifBit : JNotif → Nat
  | JNotif.ready => 1
  | JNotif.started => 2
  | JNotif.canceled => 4
  | JNotif.finished => 8

/-- Precedence position of each notification in the setState else-if chain. -/
def notifRank : JNotif → Nat
  | JNotif.ready => 0
  | JNotif.started => 1
  | JNotif.canceled => 2
  | JNotif.finished => 3

/-- A rising edge for notification `n`: its bit is clear in the old state and set in the
new state. -/
def risingEdge (oldS newS : Nat) (n : JNotif) : Prop :=
  oldS &&& notifBit n = 0 ∧ ¬ newS &&& notifBit n = 0

instance (oldS newS : Nat) (n : JNotif) : Decidable (risingEdge oldS newS n) := by
  unfold risingEdge
  infer_instance

/-- Highest-precedence set bit of a mask, as the notification list setState produces when
the old state is multiJob_NONE.  This definition follows the specification's wording
(precedence READY, RUNNING, CANCEL, FINISHED) and is compared against the embedded code. -/
def precFirst (m : Nat) : List JNotif :=
  if ¬ m &&& 1 = 0 then [JNotif.ready]
  else if ¬ m &&& 2 = 0 then [JNotif.started]
  else if ¬ m &&& 4 = 0 then [JNotif.canceled]
  else if ¬ m &&& 8 = 0 then [JNotif.finished]
  else []

/-! Job queue (multiJobQueue, src/unnamed/part_004).  A job record carries the
shared_ptr identity (`ptr`), the m_name / m_id strings, the m_state bits and whether a
multiJobCallback is attached.  The queue state carries the job list, the embedded
release-block's m_release flag and whether a queue callback is attached. -/

structure JobRec where
  ptr : Nat
  m_name : String
  m_id : String
  m_state : Nat
  m_cb : Bool
deriving DecidableEq, Repr

structure QState where
  m_jobQueue : List JobRec
  m_released : Bool
  m_cb : Bool
deriving DecidableEq, Repr

/-- Observable events of the queue operations: queue-callback hooks plus the job-callback
notifications fired by state changes the queue performs, each tagged with the job's
identity. -/
inductive QEvent where
  | adding (p : Nat)
  | added (p : Nat)
  | removed (p : Nat)
  | jobNotif (p : Nat) (n : JNotif)
deriving DecidableEq, Repr

/-- Embedding of multiJobQueue::add (src/unnamed/part_004 lines 109-139).  With the
uniqueness flag, a job already present by pointer identity only sets the release-block and
returns; otherwise the adding hook fires, the job is set ready, pushed back, the added
hook fires and the block is released. -/
def qAdd (q : QState) (job : JobRec) (guaranteeUniqueFlag : Bool) : QState × List QEvent :=
  if guaranteeUniqueFlag = true ∧ q.m_jobQueue.any (fun j => j.ptr == job.ptr) = true then
    ({ q with m_released := true }, [])
  else
    let addingEvs := if q.m_cb then [QEvent.adding job.ptr] else []
    let r := readyOp job.m_cb job.m_state
    let job2 := { job with m_state := r.1 }
    let readyEvs := r.2.map (fun n => QEvent.jobNotif job.ptr n)
    let addedEvs := if q.m_cb then [QEvent.added job.ptr] else []
    ({ q with m_jobQueue := q.m_jobQueue ++ [job2], m_released := true },
     addingEvs ++ readyEvs ++ addedEvs)

/-- Lookup loop of multiJobQueue::findByName / findById (src/unnamed/part_004): first
job whose key equals the argument. -/
def lookupFirst (key : JobRec → String) (s : String) : List JobRec → Option JobRec
  | [] => none
  | j :: tl => if s = key j then some j else lookupFirst key s tl

/-- Embedding of multiJobQueue::findByName (src/unnamed/part_004 lines 331-344): an empty
name finds nothing; otherwise the first job with that m_name. -/
def findByNameL (s : String) (jobs : List JobRec) : Option JobRec :=
  if s = "" then none else lookupFirst (fun j => j.m_name) s jobs

/-- Embedding of multiJobQueue::findById (src/unnamed/part_004 lines 316-329). -/
def findByIdL (s : String) (jobs : List JobRec) : Option JobRec :=
  if s = "" then none else lookupFirst (fun j => j.m_id) s jobs

/-- Erase of the iterator returned by the lookup loop: removes the first job whose key
equals the argument, returning it together with the remaining list. -/
def eraseFirst (key : JobRec → String) (s : String) : List JobRec → Option JobRec × List JobRec
  | [] => (none, [])
  | j :: tl =>
    if s = key j then (some j, tl)
    else
      let r := eraseFirst key s tl
      (r.1, j :: r.2)

/-- Erase of std::find by shared_ptr identity, used by multiJobQueue::remove. -/
def eraseFirstByPtr (p : Nat) : List JobRec → Option JobRec × List JobRec
  | [] => (none, [])
  | j :: tl =>
    if j.ptr = p then (some j, tl)
    else
      let r := eraseFirstByPtr p tl
      (r.1, j :: r.2)

/-- Embedding of multiJobQueue::removeByName (src/unnamed/part_004 lines 141-163): empty
name returns immediately; otherwise erase the first match, set the release-block to
whether the queue is still non-empty, and fire removed when a job was erased and a
callback is attached. -/
def qRemoveByName (q : QState) (name : String) : Option JobRec × QState × List QEvent :=
  if name = "" then (none, q, [])
  else
    let r := eraseFirst (fun j => j.m_name) name q.m_jobQueue
    (r.1,
     { q with m_jobQueue := r.2, m_released := !r.2.isEmpty },
     match r.1 with
     | some j => if q.m_cb then [QEvent.removed j.ptr] else []
     | none => [])

/-- Embedding of multiJobQueue::removeById (src/unnamed/part_004 lines 164-185); the same
shape as removeByName with the m_id key. -/
def qRemoveById (q : QState) (idStr : String) : Option JobRec × QState × List QEvent :=
  if idStr = "" then (none, q, [])
  else
    let r := eraseFirst (fun j => j.m_id) idStr q.m_jobQueue
    (r.1,
     { q with m_jobQueue := r.2, m_released := !r.2.isEmpty },
     match r.1 with
     | some j => if q.m_cb then [QEvent.removed j.ptr] else []
     | none => [])

/-- Embedding of multiJobQueue::remove (src/unnamed/part_004 lines 187-205): erase the
first pointer-identical job and fire removed; the release-block is not touched. -/
def qRemove (q : QState) (jobPtr : Nat) : QState × List QEvent :=
  let r := eraseFirstByPtr jobPtr q.m_jobQueue
  ({ q with m_jobQueue := r.2 },
   match r.1 with
   | some j => if q.m_cb then [QEvent.removed j.ptr] else []
   | none => [])

/-- Canceled-head discard loop of multiJobQueue::nextJob (src/unnamed/part_004 lines
280-286): every leading canceled job receives finished() and is erased.  Returns the
processed jobs (with their new state and the notifications their callback received) and
the remaining list. -/
def discardCanceledHead : List JobRec → List (JobRec × List JNotif) × List JobRec
  | [] => ([], [])
  | j :: tl =>
    if isCanceledState j.m_state then
      let r := finishedOp j.m_cb j.m_state
      let rest := discardCanceledHead tl
      (({ j with m_state := r.1 }, r.2) :: rest.1, rest.2)
    else ([], j :: tl)

/-- Embedding of multiJobQueue::nextJob (src/unnamed/part_004 lines 261-295) in its
sequential semantics: an empty queue yields null and clears the release-block (the
blocking wait, when taken, re-checks emptiness on wake); otherwise leading canceled jobs
are discarded with finished(), the first survivor is popped, and the block is set to
whether jobs remain. -/
def qNextJob (q : QState) : Option JobRec × QState × List (JobRec × List JNotif) :=
  if q.m_jobQueue.isEmpty then (none, { q with m_released := false }, [])
  else
    let d := discardCanceledHead q.m_jobQueue
    match d.2 with
    | [] => (none, { q with m_jobQueue := [], m_released := false }, d.1)
    | j :: tl => (some j, { q with m_jobQueue := tl, m_released := !tl.isEmpty }, d.1)

/-- Counts the added hooks in an event list. -/
def countAdded : List QEvent → Nat
  | [] => 0
  | QEvent.added _ :: tl => countAdded tl + 1
  | _ :: tl => countAdded tl

/-! Worker thread failure path (multi::Thread::runInternal, src/unnamed/part_006 lines
201-216, and multiJobThreadQueue::run, src/unnamed/part_005 lines 57-103). -/

/-- Faults a job body can raise: the library's Interrupt, or any other failure. -/
inductive Fault where
  | interrupt
  | userFailure
deriving DecidableEq, Repr

structure WorkerOutcome where
  startedJobs : List Nat
  m_currentJob : Option Nat
  escaped : Option Fault
  m_running : Bool
deriving DecidableEq, Repr

/-- Job-processing loop of multiJobThreadQueue::run (src/unnamed/part_005 lines 57-103).
The jobs successive nextJob calls deliver are modelled by the list of their run()
outcomes (none = normal return, some f = f was raised), indexed by position.  Each
iteration sets m_currentJob, starts the job, and clears m_currentJob; a raise unwinds out
of the loop with m_currentJob still set, since the clearing statement is skipped.  When
the queue is exhausted the loop exits normally with m_currentJob cleared. -/
def tqRunLoop : List (Option Fault) → Nat → List Nat → List Nat × Option Nat × Option Fault
  | [], _, acc => (acc.reverse, none, none)
  | b :: tl, i, acc =>
    match b with
    | none => tqRunLoop tl (i + 1) (i :: acc)
    | some f => ((i :: acc).reverse, some i, some f)

/-- Embedding of multi::Thread::runInternal (src/unnamed/part_006 lines 201-216) wrapping
the worker loop: when the interrupt flag is pre-set run() is skipped; the catch handles
only Interrupt; any other fault escapes the thread entry function before the statement
clearing m_running executes. -/
def runInternalW (interruptFlag : Bool) (bodies : List (Option Fault)) : WorkerOutcome :=
  if interruptFlag then ⟨[], none, none, false⟩
  else
    let r := tqRunLoop bodies 0 []
    match r.2.2 with
    | none => ⟨r.1, r.2.1, none, false⟩
    | some Fault.interrupt => ⟨r.1, r.2.1, none, false⟩
    | some f => ⟨r.1, r.2.1, some f, true⟩

/-! Barrier counters (multi::Barrier, src/unnamed/part_006 lines 7-62). -/

structure BarrierS where
  m_maxCount : Int
  m_blockedCount : Int
  m_waitCount : Int
deriving DecidableEq, Repr

/-- Counter effect of a completed multi::Barrier::block (src/unnamed/part_006 lines
20-36): m_blockedCount is incremented unconditionally; a parked call increments and then
decrements m_waitCount, so a completed call leaves it unchanged. -/
def barBlock (b : BarrierS) : BarrierS :=
  { b with m_blockedCount := b.m_blockedCount + 1 }

/-- Counter effect of multi::Barrier::reset (src/unnamed/part_006 lines 38-51) once the
parked threads have drained: both m_blockedCount and m_waitCount end at zero. -/
def barReset (b : BarrierS) : BarrierS :=
  { b with m_blockedCount := 0, m_waitCount := 0 }

inductive BarOp where
  | blockCall
  | resetCall
deriving DecidableEq, Repr

def barApply (b : BarrierS) : BarOp → BarrierS
  | BarOp.blockCall => barBlock b
  | BarOp.resetCall => barReset b

def barRun (b : BarrierS) (ops : List BarOp) : BarrierS :=
  ops.foldl barApply b

/-- Barrier constructor (src/unnamed/part_006 lines 7-13). -/
def mkBarrier (n : Int) : BarrierS := ⟨n, 0, 0⟩

/-- Number of block() calls after the last reset() in an operation sequence. -/
def blocksSinceReset (ops : List BarOp) : Int :=
  ops.foldl
    (fun acc op =>
      match op with
      | BarOp.blockCall => acc + 1
      | BarOp.resetCall => 0)
    0

/-! Lock and callback dispatch traces. -/

inductive MutexId where
  | jobMutex
  | queueMutex
  | blockMutex
deriving DecidableEq, Repr

inductive CbKind where
  | percentCompleteChangedCb
  | removedCb
deriving DecidableEq, Repr

inductive TraceEv where
  | acq (m : MutexId)
  | rel (m : MutexId)
  | invoke (c : CbKind)
deriving DecidableEq, Repr

/-- Callbacks a trace invokes while at least one mutex is held. -/
def invokesUnderLock : List TraceEv → List MutexId → List CbKind
  | [], _ => []
  | TraceEv.acq m :: tl, held => invokesUnderLock tl (m :: held)
  | TraceEv.rel m :: tl, held => invokesUnderLock tl (held.erase m)
  | TraceEv.invoke c :: tl, held =>
      (if held.isEmpty then [] else [c]) ++ invokesUnderLock tl held

/-- Lock/callback trace of multiJob::setPercentComplete (src/include/Thread.h lines
497-504): the lock_guard on m_jobMutex spans the percentCompleteChanged dispatch. -/
def setPercentCompleteTrace (cbAttached : Bool) : List TraceEv :=
  [TraceEv.acq MutexId.jobMutex] ++
  (if cbAttached then [TraceEv.invoke CbKind.percentCompleteChangedCb] else []) ++
  [TraceEv.rel MutexId.jobMutex]

/-- Lock/callback trace of multiJobQueue::removeByName (src/unnamed/part_004 lines
141-163): queue lock scope, then the block update (its own mutex), then the removed
dispatch when a job was found and a callback is attached. -/
def removeByNameTrace (found cbAttached : Bool) : List TraceEv :=
  [TraceEv.acq MutexId.queueMutex, TraceEv.rel MutexId.queueMutex,
   TraceEv.acq MutexId.blockMutex, TraceEv.rel MutexId.blockMutex] ++
  (if found = true ∧ cbAttached = true then [TraceEv.invoke CbKind.removedCb] else [])

/-- Lock/callback trace of multiJobQueue::removeById (src/unnamed/part_004 lines
164-185): the block update happens inside the queue lock scope; the removed dispatch is
after both are released. -/
def removeByIdTrace (found cbAttached : Bool) : List TraceEv :=
  [TraceEv.acq MutexId.queueMutex, TraceEv.acq MutexId.blockMutex,
   TraceEv.rel MutexId.blockMutex, TraceEv.rel MutexId.queueMutex] ++
  (if found = true ∧ cbAttached = true then [TraceEv.invoke CbKind.removedCb] else [])

/-- Lock/callback trace of multiJobQueue::remove (src/unnamed/part_004 lines 187-205). -/
def removeTrace (found cbAttached : Bool) : List TraceEv :=
  [TraceEv.acq MutexId.queueMutex, TraceEv.rel MutexId.queueMutex] ++
  (if found = true ∧ cbAttached = true then [TraceEv.invoke CbKind.removedCb] else [])

/-! Helper lemmas about the job state machine. -/

theorem and_fifteen_lt_sixteen (v : Nat) : v &&& 15 < 16 :=
  Nat.lt_succ_of_le (Nat.and_le_right)

theorem setStateCompute_mask (s v : Nat) (onFlag : Bool) :
    setStateCompute s v onFlag = setStateCompute s (v &&& 15) onFlag := by
  cases onFlag with
  | true =>
    apply Nat.eq_of_testBit_eq
    intro i
    simp only [setStateCompute, if_true, Nat.testBit_and, Nat.testBit_or]
    cases Nat.testBit 15 i <;> cases Nat.testBit s i <;> cases Nat.testBit v i <;> simp
  | false =>
    apply Nat.eq_of_testBit_eq
    intro i
    simp only [setStateCompute, if_false, Nat.testBit_and, Nat.testBit_xor]
    cases Nat.testBit 15 i <;> cases Nat.testBit s i <;> cases Nat.testBit v i <;> simp

theorem setStateOp_mask (v : Nat) (onFlag cb : Bool) (s : Nat) :
    setStateOp v onFlag cb s = setStateOp (v &&& 15) onFlag cb s := by
  unfold setStateOp
  rw [setStateCompute_mask s v onFlag]

set_option synthInstance.maxSize 2000 in
set_option maxHeartbeats 2000000 in
/-- Finite check behind the setState notification properties: for states and masked
values, at most one notification fires, any fired notification is the
highest-precedence rising edge, and a rising edge guarantees some notification. -/
theorem setState_edge_props :
    ∀ s < 16, ∀ v < 16, ∀ onFlag : Bool,
      (setStateOp v onFlag true s).2.length ≤ 1 ∧
      (∀ n ∈ (setStateOp v onFlag true s).2,
          risingEdge s (setStateOp v onFlag true s).1 n ∧
          ∀ m : JNotif, notifRank m < notifRank n →
            ¬ risingEdge s (setStateOp v onFlag true s).1 m) ∧
      ((∃ n : JNotif, risingEdge s (setStateOp v onFlag true s).1 n) →
          (setStateOp v onFlag true s).2 ≠ []) := by
  decide

/-- Finite check: setState(value, true) from the cleared state lands on the masked value
and fires the highest-precedence set bit of the value. -/
theorem setState_from_none :
    ∀ v < 16, setStateOp v true true 0 = (v, precFirst v) := by
  decide

/-- Finite check: finished() on a canceled job always lands on CANCEL|FINISHED = 12 and
fires the canceled notification (never finished), unless the job already was at 12 or has
no callback. -/
theorem finishedOp_canceled :
    ∀ s < 16, ∀ cbf : Bool, isCanceledState s = true →
      finishedOp cbf s =
        (12, if cbf = true ∧ ¬ s = 12 then [JNotif.canceled] else []) := by
  decide

/-! Claim C2. -/

/-- C2, counterexample: a single setState call that raises both the CANCEL and the
FINISHED bit from NONE delivers only the canceled notification; the FINISHED rising edge
produces nothing, contradicting the claim that both notifications are delivered. -/
theorem c2_counterexample :
    setStateOp 12 true true 0 = (12, [JNotif.canceled]) ∧
    risingEdge 0 12 JNotif.finished ∧
    JNotif.finished ∉ (setStateOp 12 true true 0).2 := by
  decide

/-- C2, amended: for every job with a callback attached and every setState(value, on)
call, at most one notification is delivered, namely the first rising edge in the
precedence order READY, RUNNING, CANCEL, FINISHED; lower-precedence rising edges in the
same call deliver nothing, and whenever some rising edge exists a notification is
delivered. -/
theorem c2_setState_precedence (s v : Nat) (hs : s < 16) (onFlag : Bool) :
    (setStateOp v onFlag true s).2.length ≤ 1 ∧
    (∀ n ∈ (setStateOp v onFlag true s).2,
        risingEdge s (setStateOp v onFlag true s).1 n ∧
        ∀ m : JNotif, notifRank m < notifRank n →
          ¬ risingEdge s (setStateOp v onFlag true s).1 m) ∧
    ((∃ n : JNotif, risingEdge s (setStateOp v onFlag true s).1 n) →
        (setStateOp v onFlag true s).2 ≠ []) := by
  rw [setStateOp_mask]
  exact setState_edge_props s hs (v &&& 15) (and_fifteen_lt_sixteen v) onFlag

/-- C2, witness: the amended theorem applied at state NONE raising CANCEL|FINISHED. -/
theorem c2_setState_precedence_witness :
    (setStateOp 12 true true 0).2.length ≤ 1 :=
  (c2_setState_precedence 0 12 (by decide) true).1

/-! Claim C3. -/

/-- C3, code bug: setState or-s bits into the state without clearing the others (despite
the comment in src/unnamed/part_003 lines 145-147 and the State enum documentation that
only FINISHED and CANCEL may be active together).  From the freshly constructed READY
state, setState(RUNNING) leaves READY|RUNNING = 3, and a full start() with a no-op run
body leaves READY|RUNNING|FINISHED = 11: three of the supposedly mutually exclusive bits
set at rest. -/
theorem c3_start_breaks_exclusivity :
    setStateOp 2 true true 1 = (3, [JNotif.started]) ∧
    startNoRunOp true 1 = (11, [JNotif.started, JNotif.finished]) ∧
    11 &&& 1 = 1 ∧ 11 &&& 2 = 2 ∧ 11 &&& 8 = 8 := by
  decide

/-! Claim C7. -/

/-- C7, counterexample: resetState(value) with value equal to the current state is a
no-op: resetState(READY) on a job already in READY fires no ready notification, contrary
to the claim that the cleared-state rising edges fire even when value equals the current
state. -/
theorem c7_counterexample :
    resetStateOp 1 true 1 = (1, []) ∧ JNotif.ready ∉ (resetStateOp 1 true 1).2 := by
  decide

/-- C7, amended: resetState(value) is a no-op when value equals the current state;
otherwise it clears the state to NONE and delegates to setState(value, true), so the
resulting state is value masked to the legal bits and only the highest-precedence bit of
value that rose from the cleared state produces its notification. -/
theorem c7_resetState_shortcircuit (v s : Nat) :
    (v = s → resetStateOp v true s = (s, [])) ∧
    (v ≠ s → resetStateOp v true s = (v &&& 15, precFirst (v &&& 15))) := by
  constructor
  · intro h
    simp [resetStateOp, h]
  · intro h
    unfold resetStateOp
    rw [if_neg h, setStateOp_mask]
    exact setState_from_none (v &&& 15) (and_fifteen_lt_sixteen v)

/-- C7, witness: resetState(CANCEL|FINISHED) on a job in READY|CANCEL lands on 12 and
fires only canceled. -/
theorem c7_resetState_shortcircuit_witness :
    resetStateOp 12 true 5 = (12 &&& 15, precFirst (12 &&& 15)) :=
  (c7_resetState_shortcircuit 12 5).2 (by decide)

/-! Claim C1. -/

theorem dropWhile_head_not {α : Type} (p : α → Bool) (l : List α) (a : α)
    (h : (l.dropWhile p).head? = some a) : p a = false := by
  induction l with
  | nil => simp [List.dropWhile] at h
  | cons x tl ih =>
    rw [List.dropWhile_cons] at h
    by_cases hx : p x = true
    · rw [if_pos hx] at h
      exact ih h
    · rw [if_neg hx] at h
      simp at h
      rw [← h]
      exact Bool.eq_false_iff.mpr hx

theorem discardCanceledHead_spec (jobs : List JobRec)
    (h : ∀ j ∈ jobs, j.m_state < 16) :
    discardCanceledHead jobs =
      ((jobs.takeWhile fun j => isCanceledState j.m_state).map
         (fun j => ({ j with m_state := 12 },
                    if j.m_cb = true ∧ ¬ j.m_state = 12 then [JNotif.canceled] else [])),
       jobs.dropWhile fun j => isCanceledState j.m_state) := by
  induction jobs with
  | nil => rfl
  | cons j tl ih =>
    have htl : ∀ x ∈ tl, x.m_state < 16 := fun x hx => h x (List.mem_cons_of_mem j hx)
    cases hc : isCanceledState j.m_state with
    | true =>
      have hf := finishedOp_canceled j.m_state (h j (List.mem_cons_self j tl)) j.m_cb hc
      simp [discardCanceledHead, hc, hf, List.takeWhile_cons, List.dropWhile_cons, ih htl]
    | false =>
      simp [discardCanceledHead, hc, List.takeWhile_cons, List.dropWhile_cons]

theorem qNextJob_spec (q : QState)
    (h : ∀ j ∈ q.m_jobQueue, j.m_state < 16) :
    qNextJob q =
      ((q.m_jobQueue.dropWhile fun j => isCanceledState j.m_state).head?,
       { m_jobQueue := (q.m_jobQueue.dropWhile fun j => isCanceledState j.m_state).tail,
         m_released := !(q.m_jobQueue.dropWhile fun j => isCanceledState j.m_state).tail.isEmpty,
         m_cb := q.m_cb },
       (q.m_jobQueue.takeWhile fun j => isCanceledState j.m_state).map
         (fun j => ({ j with m_state := 12 },
                    if j.m_cb = true ∧ ¬ j.m_state = 12 then [JNotif.canceled] else []))) := by
  obtain ⟨jq, rel, cb⟩ := q
  simp only at h
  cases jq with
  | nil => rfl
  | cons j tl =>
    have hd := discardCanceledHead_spec (j :: tl) h
    cases hdrop : (j :: tl).dropWhile (fun x => isCanceledState x.m_state) with
    | nil => simp [qNextJob, hd, hdrop]
    | cons s stl => simp [qNextJob, hd, hdrop]

/-- C1, counterexample: a queue holding a canceled head job a (state READY|CANCEL = 5)
followed by b (READY) returns b from nextJob and removes a, but a's callback receives
only canceled, never the finished notification the claim promises. -/
theorem c1_counterexample :
    (qNextJob ⟨[⟨0, "a", "a", 5, true⟩, ⟨1, "b", "b", 1, true⟩], true, true⟩).1 =
      some ⟨1, "b", "b", 1, true⟩ ∧
    (qNextJob ⟨[⟨0, "a", "a", 5, true⟩, ⟨1, "b", "b", 1, true⟩], true, true⟩).2.2 =
      [(⟨0, "a", "a", 12, true⟩, [JNotif.canceled])] ∧
    ∀ p ∈ (qNextJob ⟨[⟨0, "a", "a", 5, true⟩, ⟨1, "b", "b", 1, true⟩], true, true⟩).2.2,
      JNotif.finished ∉ p.2 := by
  decide

/-- C1, amended: when the head job is canceled, nextJob discards every leading canceled
job, transitioning each to CANCEL|FINISHED = 12, and returns the first following
non-canceled job; each discarded job's callback receives the canceled notification (the
CANCEL rising edge from the cleared state takes precedence), never finished. -/
theorem c1_nextJob_cancel_head (q : QState)
    (hstates : ∀ j ∈ q.m_jobQueue, j.m_state < 16)
    (hhead : ∃ j tl, q.m_jobQueue = j :: tl ∧ isCanceledState j.m_state = true) :
    (qNextJob q).1 = (q.m_jobQueue.dropWhile fun j => isCanceledState j.m_state).head? ∧
    (qNextJob q).2.1.m_jobQueue =
      (q.m_jobQueue.dropWhile fun j => isCanceledState j.m_state).tail ∧
    (qNextJob q).2.2 =
      (q.m_jobQueue.takeWhile fun j => isCanceledState j.m_state).map
        (fun j => ({ j with m_state := 12 },
                   if j.m_cb = true ∧ ¬ j.m_state = 12 then [JNotif.canceled] else [])) ∧
    (∀ p ∈ (qNextJob q).2.2, p.1.m_state = 12 ∧ JNotif.finished ∉ p.2) ∧
    (∀ jl, (qNextJob q).1 = some jl → isCanceledState jl.m_state = false) := by
  rw [qNextJob_spec q hstates]
  refine ⟨rfl, rfl, rfl, ?_, ?_⟩
  · intro p hp
    simp only [List.mem_map] at hp
    obtain ⟨j, hj, rfl⟩ := hp
    refine ⟨rfl, ?_⟩
    by_cases hcb : j.m_cb = true ∧ ¬ j.m_state = 12
    · simp [hcb]
    · simp [hcb]
  · intro jl hjl
    exact dropWhile_head_not (fun j => isCanceledState j.m_state) q.m_jobQueue jl hjl

/-- C1, witness: the amended theorem applied to the concrete two-element queue. -/
theorem c1_nextJob_cancel_head_witness :
    (qNextJob ⟨[⟨0, "a", "a", 5, true⟩, ⟨1, "b", "b", 1, true⟩], true, true⟩).1 =
      ((⟨[⟨0, "a", "a", 5, true⟩, ⟨1, "b", "b", 1, true⟩], true, true⟩ :
          QState).m_jobQueue.dropWhile fun j => isCanceledState j.m_state).head? :=
  (c1_nextJob_cancel_head ⟨[⟨0, "a", "a", 5, true⟩, ⟨1, "b", "b", 1, true⟩], true, true⟩
    (by decide) ⟨⟨0, "a", "a", 5, true⟩, [⟨1, "b", "b", 1, true⟩], rfl, by decide⟩).1

/-! Claim C4. -/

/-- C4, code bug: setPercentComplete holds m_jobMutex while dispatching
percentCompleteChanged — the lock_guard scope spans the callback invocation — violating
the design invariant that no user callback runs under an internal mutex (the spec's own
design notes flag exactly this and prescribe capture-release-dispatch instead). -/
theorem c4_percentComplete_under_lock :
    invokesUnderLock (setPercentCompleteTrace true) [] =
      [CbKind.percentCompleteChangedCb] ∧
    invokesUnderLock (setPercentCompleteTrace true) [] ≠ [] := by
  decide

/-! Claim C8. -/

/-- C8, counterexample: removing the single job of a queue through remove(job) leaves the
release-block's released flag at its prior value true although the queue became empty, so
released does not equal queue-non-emptiness after remove returns. -/
theorem c8_counterexample :
    (qRemove ⟨[⟨0, "a", "a", 1, true⟩], true, true⟩ 0).1.m_jobQueue = [] ∧
    (qRemove ⟨[⟨0, "a", "a", 1, true⟩], true, true⟩ 0).1.m_released = true ∧
    (qRemove ⟨[⟨0, "a", "a", 1, true⟩], true, true⟩ 0).1.m_released ≠
      !(qRemove ⟨[⟨0, "a", "a", 1, true⟩], true, true⟩ 0).1.m_jobQueue.isEmpty := by
  decide

/-- C8, amended: after removeByName(name) or removeById(id) with a non-empty key
returns, the release-block's released flag equals queue non-emptiness, and the removed
callback fires for the erased job outside every lock; remove(job) erases the job and
fires removed outside every lock but does not update the release-block at all. -/
theorem c8_remove_release_block (q : QState) (name idStr : String) (p : Nat)
    (hn : name ≠ "") (hi : idStr ≠ "") :
    (qRemoveByName q name).2.1.m_released =
      !(qRemoveByName q name).2.1.m_jobQueue.isEmpty ∧
    (qRemoveById q idStr).2.1.m_released =
      !(qRemoveById q idStr).2.1.m_jobQueue.isEmpty ∧
    (qRemove q p).1.m_released = q.m_released ∧
    (∀ j, (qRemoveByName q name).1 = some j →
        (qRemoveByName q name).2.2 =
          if q.m_cb then [QEvent.removed j.ptr] else []) ∧
    (∀ found cbf : Bool,
        invokesUnderLock (removeByNameTrace found cbf) [] = [] ∧
        invokesUnderLock (removeByIdTrace found cbf) [] = [] ∧
        invokesUnderLock (removeTrace found cbf) [] = []) := by
  refine ⟨?_, ?_, rfl, ?_, by decide⟩
  · simp [qRemoveByName, hn]
  · simp [qRemoveById, hi]
  · intro j hj
    simp only [qRemoveByName, if_neg hn] at hj ⊢
    rw [hj]

/-- C8, witness: the amended theorem applied to a one-job queue. -/
theorem c8_remove_release_block_witness :
    (qRemove ⟨[⟨0, "a", "a", 1, true⟩], true, true⟩ 0).1.m_released =
      (⟨[⟨0, "a", "a", 1, true⟩], true, true⟩ : QState).m_released :=
  (c8_remove_release_block ⟨[⟨0, "a", "a", 1, true⟩], true, true⟩ "a" "a" 0
    (by decide) (by decide)).2.2.1

/-! Claim C5. -/

theorem tqRunLoop_ok_prefix (pre : List (Option Fault)) (hpre : ∀ b ∈ pre, b = none)
    (post : List (Option Fault)) :
    ∀ (i : Nat) (acc : List Nat),
      tqRunLoop (pre ++ some Fault.userFailure :: post) i acc =
        (acc.reverse ++ List.range' i (pre.length + 1), some (i + pre.length),
         some Fault.userFailure) := by
  induction pre with
  | nil =>
    intro i acc
    simp [tqRunLoop, List.range'_one]
  | cons b tl ih =>
    intro i acc
    have hb : b = none := hpre b (List.mem_cons_self b tl)
    subst hb
    have htl : ∀ x ∈ tl, x = none := fun x hx => hpre x (List.mem_cons_of_mem _ hx)
    simp only [List.cons_append, tqRunLoop, List.append_eq]
    rw [ih htl (i + 1) (i :: acc)]
    simp only [List.length_cons, List.reverse_cons, List.append_assoc, List.range'_succ,
      List.singleton_append, Prod.mk.injEq, Option.some.injEq]
    exact ⟨trivial, by omega, trivial⟩

/-- C5, counterexample: a worker whose first job body raises a non-interrupt failure does
not clear current_job and does not continue polling: current_job stays at job 0, the
second job is never started, m_running is never cleared, and the failure escapes the
thread entry function. -/
theorem c5_counterexample :
    runInternalW false [some Fault.userFailure, none] =
      ⟨[0], some 0, some Fault.userFailure, true⟩ ∧
    (runInternalW false [some Fault.userFailure, none]).m_currentJob ≠ none ∧
    (runInternalW false [some Fault.userFailure, none]).startedJobs ≠ [0, 1] := by
  decide

/-- C5, amended: a non-interrupt failure in a job body propagates out of
multiJobThreadQueue::run (which has no handler) and past Thread::runInternal's catch
(which traps only Interrupt): it escapes the thread entry function, m_currentJob is left
pointing at the failing job, m_running is never cleared, and no later job is polled. -/
theorem c5_failure_escapes_worker (pre post : List (Option Fault))
    (hpre : ∀ b ∈ pre, b = none) :
    runInternalW false (pre ++ some Fault.userFailure :: post) =
      ⟨List.range' 0 (pre.length + 1), some pre.length, some Fault.userFailure, true⟩ := by
  have h := tqRunLoop_ok_prefix pre hpre post 0 []
  simp only [List.reverse_nil, List.nil_append, Nat.zero_add] at h
  simp [runInternalW, h]

/-- C5, witness: the amended theorem with one successful job before the failing one. -/
theorem c5_failure_escapes_worker_witness :
    runInternalW false ([none] ++ some Fault.userFailure :: [none]) =
      ⟨List.range' 0 2, some 1, some Fault.userFailure, true⟩ :=
  c5_failure_escapes_worker [none] [none] (by decide)

/-! Claim C6. -/

theorem barRun_maxCount (ops : List BarOp) :
    ∀ b : BarrierS, (barRun b ops).m_maxCount = b.m_maxCount := by
  induction ops with
  | nil => intro b; rfl
  | cons op tl ih =>
    intro b
    show (barRun (barApply b op) tl).m_maxCount = b.m_maxCount
    rw [ih]
    cases op <;> rfl

theorem barRun_waitCount (ops : List BarOp) :
    ∀ b : BarrierS, b.m_waitCount = 0 → (barRun b ops).m_waitCount = 0 := by
  induction ops with
  | nil => intro b hb; exact hb
  | cons op tl ih =>
    intro b hb
    show (barRun (barApply b op) tl).m_waitCount = 0
    apply ih
    cases op
    · exact hb
    · rfl

theorem barRun_blockedCount (ops : List BarOp) :
    ∀ b : BarrierS,
      (barRun b ops).m_blockedCount =
        ops.foldl
          (fun acc op =>
            match op with
            | BarOp.blockCall => acc + 1
            | BarOp.resetCall => 0)
          b.m_blockedCount := by
  induction ops with
  | nil => intro b; rfl
  | cons op tl ih =>
    intro b
    show (barRun (barApply b op) tl).m_blockedCount = _
    rw [ih]
    cases op <;> rfl

theorem foldl_step_nonneg (ops : List BarOp) :
    ∀ c : Int, 0 ≤ c →
      0 ≤ ops.foldl
            (fun acc op =>
              match op with
              | BarOp.blockCall => acc + 1
              | BarOp.resetCall => 0)
            c := by
  induction ops with
  | nil => intro c hc; exact hc
  | cons op tl ih =>
    intro c hc
    cases op
    · exact ih (c + 1) (by omega)
    · exact ih 0 le_rfl

/-- C6, counterexample: a barrier with max_count = 1 and two consecutive block() calls
(each returns immediately, since blocked_count reaches max on arrival) ends with
blocked_count = 2, strictly above max_count, refuting the claimed invariant. -/
theorem c6_counterexample :
    barRun (mkBarrier 1) [BarOp.blockCall, BarOp.blockCall] = ⟨1, 2, 0⟩ ∧
    ¬ (barRun (mkBarrier 1) [BarOp.blockCall, BarOp.blockCall]).m_blockedCount ≤
        (barRun (mkBarrier 1) [BarOp.blockCall, BarOp.blockCall]).m_maxCount := by
  decide

/-- C6, amended: at rest, wait_count is 0 and 0 ≤ blocked_count always holds, and
blocked_count equals the number of block() calls since the last reset(); consequently
blocked_count ≤ max_count holds exactly when at most max_count block() calls have
completed since the last reset — extra block() calls push blocked_count above
max_count. -/
theorem c6_barrier_counters (n : Int) (hn : 0 < n) (ops : List BarOp) :
    (barRun (mkBarrier n) ops).m_maxCount = n ∧
    (barRun (mkBarrier n) ops).m_waitCount = 0 ∧
    0 ≤ (barRun (mkBarrier n) ops).m_blockedCount ∧
    (barRun (mkBarrier n) ops).m_blockedCount = blocksSinceReset ops ∧
    (blocksSinceReset ops ≤ n → (barRun (mkBarrier n) ops).m_blockedCount ≤ n) := by
  have h3 : (barRun (mkBarrier n) ops).m_blockedCount = blocksSinceReset ops :=
    barRun_blockedCount ops (mkBarrier n)
  refine ⟨barRun_maxCount ops (mkBarrier n), barRun_waitCount ops (mkBarrier n) rfl,
    ?_, h3, ?_⟩
  · rw [h3]
    exact foldl_step_nonneg ops 0 le_rfl
  · intro h
    rw [h3]
    exact h

/-- C6, witness: the amended theorem for one block() call on a barrier of capacity 1. -/
theorem c6_barrier_counters_witness :
    (barRun (mkBarrier 1) [BarOp.blockCall]).m_maxCount = 1 :=
  (c6_barrier_counters 1 (by decide) [BarOp.blockCall]).1

/-! Claim C9. -/

theorem countAdded_append (l1 l2 : List QEvent) :
    countAdded (l1 ++ l2) = countAdded l1 + countAdded l2 := by
  induction l1 with
  | nil => simp [countAdded]
  | cons x tl ih =>
    cases x <;> simp [countAdded, ih] <;> omega

theorem countAdded_map_jobNotif (p : Nat) (l : List JNotif) :
    countAdded (l.map fun n => QEvent.jobNotif p n) = 0 := by
  induction l with
  | nil => rfl
  | cons x tl ih => simp [countAdded, ih]

/-- C9, confirmed: with the uniqueness flag, adding the same job twice enqueues it once.
The first add grows the queue by one and fires exactly one added hook; the second add
finds the job by pointer identity, merely re-sets the release-block (already released)
and returns with no events and the queue untouched. -/
theorem c9_unique_add_idempotent (q : QState) (job : JobRec)
    (hcb : q.m_cb = true)
    (hnotin : ∀ j ∈ q.m_jobQueue, j.ptr ≠ job.ptr) :
    (qAdd q job true).1.m_jobQueue.length = q.m_jobQueue.length + 1 ∧
    countAdded (qAdd q job true).2 = 1 ∧
    qAdd (qAdd q job true).1 job true = ((qAdd q job true).1, []) ∧
    (qAdd q job true).1.m_released = true := by
  have hany : (q.m_jobQueue.any fun j => j.ptr == job.ptr) = false := by
    cases h : q.m_jobQueue.any fun j => j.ptr == job.ptr
    · rfl
    · obtain ⟨j, hj, hp⟩ := List.any_eq_true.mp h
      exact absurd (by simpa using hp) (hnotin j hj)
  have hcond : ¬ (true = true ∧ (q.m_jobQueue.any fun j => j.ptr == job.ptr) = true) := by
    simp [hany]
  have key : qAdd q job true =
      ({ q with
          m_jobQueue :=
            q.m_jobQueue ++ [{ job with m_state := (readyOp job.m_cb job.m_state).1 }],
          m_released := true },
       (if q.m_cb then [QEvent.adding job.ptr] else []) ++
         (readyOp job.m_cb job.m_state).2.map (fun n => QEvent.jobNotif job.ptr n) ++
         (if q.m_cb then [QEvent.added job.ptr] else [])) := by
    unfold qAdd
    rw [if_neg hcond]
  have hany2 : ((qAdd q job true).1.m_jobQueue.any fun j => j.ptr == job.ptr) = true := by
    rw [key]
    simp [List.any_append]
  refine ⟨?_, ?_, ?_, ?_⟩
  · rw [key]
    simp
  · rw [key]
    simp only [hcb, if_true]
    rw [countAdded_append, countAdded_append, countAdded_map_jobNotif]
    rfl
  · have h1 : (qAdd q job true).1 =
        { q with
            m_jobQueue :=
              q.m_jobQueue ++ [{ job with m_state := (readyOp job.m_cb job.m_state).1 }],
            m_released := true } := by
      rw [key]
    rw [h1]
    unfold qAdd
    rw [if_pos ⟨rfl, by simp [List.any_append]⟩]
  · rw [key]

/-- C9, witness: the confirmed theorem applied to an empty queue with a callback. -/
theorem c9_unique_add_idempotent_witness :
    countAdded (qAdd ⟨[], false, true⟩ ⟨0, "j", "j", 1, true⟩ true).2 = 1 :=
  (c9_unique_add_idempotent ⟨[], false, true⟩ ⟨0, "j", "j", 1, true⟩ rfl (by decide)).2.1

/-! Claim C10. -/

theorem lookupFirst_eq_some (key : JobRec → String) (s : String) (jobs : List JobRec)
    (j : JobRec) (h : lookupFirst key s jobs = some j) : key j = s := by
  induction jobs with
  | nil => simp [lookupFirst] at h
  | cons x tl ih =>
    rw [lookupFirst] at h
    by_cases hx : s = key x
    · rw [if_pos hx] at h
      cases h
      exact hx.symm
    · rw [if_neg hx] at h
      exact ih h

/-- C10, confirmed: removeByName and removeById with the empty string return null, leave
the queue unchanged and fire no removed callback, and a job whose name or id is the empty
string is never located by the name or id lookup (the lookup matches only the non-empty
search key, which cannot equal the empty field). -/
theorem c10_empty_key_lookup (q : QState) (jobs : List JobRec) (s : String) (j : JobRec) :
    qRemoveByName q "" = (none, q, []) ∧
    qRemoveById q "" = (none, q, []) ∧
    (j.m_name = "" → findByNameL s jobs ≠ some j) ∧
    (j.m_id = "" → findByIdL s jobs ≠ some j) := by
  refine ⟨by simp [qRemoveByName], by simp [qRemoveById], ?_, ?_⟩
  · intro hj hcontra
    unfold findByNameL at hcontra
    by_cases hs : s = ""
    · simp [hs] at hcontra
    · rw [if_neg hs] at hcontra
      have hkey := lookupFirst_eq_some (fun x => x.m_name) s jobs j hcontra
      exact hs (hkey.symm.trans hj)
  · intro hj hcontra
    unfold findByIdL at hcontra
    by_cases hs : s = ""
    · simp [hs] at hcontra
    · rw [if_neg hs] at hcontra
      have hkey := lookupFirst_eq_some (fun x => x.m_id) s jobs j hcontra
      exact hs (hkey.symm.trans hj)

/-- C10, witness: a job whose name is empty is not found by a lookup for a non-empty
name, and the empty-string removals are no-ops on a concrete queue. -/
theorem c10_empty_key_lookup_witness :
    findByNameL "x" [⟨0, "", "x", 1, false⟩] ≠ some ⟨0, "", "x", 1, false⟩ :=
  (c10_empty_key_lookup ⟨[], false, false⟩ [⟨0, "", "x", 1, false⟩] "x"
    ⟨0, "", "x", 1, false⟩).2.2.1 rfl

end MultiJob
